import Mathlib

/-!
Shallow embedding of the comms-bridge message router (src/index.ts).

The router is a TypeScript class `CommsBridge` whose observable behaviour is
pure state transformation plus calls into outgoing-transport callbacks.  We
embed it as a state record `CommsBridge` and functions that return the new
state together with the externally observable effects:

* `delivered` — the list of `(outgoingTransportId, package)` pairs handed to
  outgoing transports, in call order;
* `resolved` — the `(replyId, payload)` resolutions delivered to pending
  `send` promises;
* `thrown` — an exception escaping the routine into its caller (`none` when
  the routine returns normally);
* `reports` — `console.error` reports emitted on contained failures.

JavaScript values relevant to routing decisions (truthiness of a handler
result, of a `name` field, of a `timeout` option) are modelled by `JSValue`
with its JS truthiness; promise-returning handlers are modelled by
`HandlerOutcome`, with the deferred continuation executed in place (the code
runs it on the microtask queue; no claim here depends on interleaving it
with other events).  JS `Map`s are modelled as association lists with
insert-or-replace (`mapSet`), lookup (`mapGet`) and delete (`mapDelete`).
The incoming-transport registry only wires callbacks and is not needed by
any property proved below, so it is omitted from the state.
-/

/-- A JavaScript value as far as routing is concerned: enough structure to
decide JS truthiness.  `NaN` and object values other than promises are not
needed by any property below (promises are represented by
`HandlerOutcome`, never nested inside a `JSValue`). -/
inductive JSValue where
  | undef : JSValue
  | null : JSValue
  | bool (b : Bool) : JSValue
  | num (n : Int) : JSValue
  | str (s : String) : JSValue
deriving DecidableEq, Repr

/-- JS truthiness: `undefined`, `null`, `false`, `0` and `""` are falsy. -/
def JSValue.truthy : JSValue → Bool
  | JSValue.undef => false
  | JSValue.null => false
  | JSValue.bool b => b
  | JSValue.num n => n != 0
  | JSValue.str s => s != ""

/-- The `IMessage` interface: the user-visible message. -/
structure IMessage where
  transportId : Option String := none
  targetId : String
  name : Option String := none
  payload : JSValue := JSValue.undef
deriving DecidableEq, Repr

/-- The `IPackage` interface: a message wrapped with routing metadata. -/
structure IPackage where
  id : Option Nat := none
  replyId : Option Nat := none
  senderId : Option String := none
  forwarderId : Option String := none
  msg : IMessage
deriving DecidableEq, Repr

/-- Lookup in an association list, modelling `Map.get`. -/
def mapGet {α β : Type} [DecidableEq α] : List (α × β) → α → Option β
  | [], _ => none
  | e :: rest, k => if e.1 = k then some e.2 else mapGet rest k

/-- Insert-or-replace in an association list, modelling `Map.set`
(replacing keeps the entry's position, as a JS `Map` does). -/
def mapSet {α β : Type} [DecidableEq α] : List (α × β) → α → β → List (α × β)
  | [], k, v => [(k, v)]
  | e :: rest, k, v => if e.1 = k then (k, v) :: rest else e :: mapSet rest k v

/-- Removal from an association list, modelling `Map.delete`. -/
def mapDelete {α β : Type} [DecidableEq α] : List (α × β) → α → List (α × β)
  | [], _ => []
  | e :: rest, k => if e.1 = k then mapDelete rest k else e :: mapDelete rest k

/-- Outcome of invoking a respond handler on a payload.  A handler may
return a plain value, throw synchronously, return a promise that resolves
to a value, or return a promise that rejects. -/
inductive HandlerOutcome where
  | syncResult (v : JSValue) : HandlerOutcome
  | throwsSync : HandlerOutcome
  | asyncResult (v : JSValue) : HandlerOutcome
  | throwsAsync : HandlerOutcome

/-- The `RespondHandlerFn` type: the code invokes a handler with
`pkg.msg.payload`, so the model's handlers consume a payload value. -/
def RespondHandlerFn : Type := JSValue → HandlerOutcome

/-- Errors raised or rejected by the bridge itself. -/
inductive BridgeError where
  | noTransport (instanceId : String) : BridgeError
  | transportNotFound (transportId : String) : BridgeError
  | replyTimeout (msgId : Nat) : BridgeError
deriving DecidableEq, Repr

/-- Reports emitted by the router via console.error on contained failures. -/
inductive Report where
  | noOutgoingForForward : Report
  | nameNotSet : Report
  | noHandler (messageName : String) : Report
  | syncHandlerFailed (messageName : String) : Report
  | asyncHandlerFailed (messageName : String) : Report
  | replySendFailed (msgId : Option Nat) : Report
deriving DecidableEq, Repr

/-- The `ISendOptions` interface.  `timeout` is `none` when absent. -/
structure ISendOptions where
  awaitReply : Bool := false
  timeout : Option Int := none
deriving DecidableEq, Repr

/-- The per-instance default reply deadline (`defaultTimeout = 5000`). -/
def defaultTimeout : Int := 5000

/-- The deadline actually used by `send`: the code computes
`options?.timeout || this.defaultTimeout`, a JS truthiness fallback, so an
absent option and a `0` (falsy) option both yield the default. -/
def effectiveTimeout (options : ISendOptions) : Int :=
  match options.timeout with
  | some t => if t != 0 then t else defaultTimeout
  | none => defaultTimeout

/-- The `CommsBridge` instance state: its id, the message-id counter, the
handler table, the outgoing-transport registry (keys only — transports are
external callbacks, observed through the `delivered` effect lists), and the
pending-response table mapping a message id to its timer duration. -/
structure CommsBridge where
  id : String
  nextId : Nat := 1
  responseHandlers : List (String × RespondHandlerFn) := []
  outgoing : List String := []
  pendingResponses : List (Nat × Int) := []

/-- The constructor `new CommsBridge(id)`. -/
def mkCommsBridge (id : String) : CommsBridge :=
  { id := id }

/-- The method `respond(messageName, handlerFn)`: register (or replace) a handler. -/
def CommsBridge.respond (s : CommsBridge) (messageName : String)
    (handlerFn : RespondHandlerFn) : CommsBridge :=
  { s with responseHandlers := mapSet s.responseHandlers messageName handlerFn }

/-- The method `addOutgoing(id, transport)`: `Map.set` on the outgoing registry; the
transport object itself is external, so only the key is recorded. -/
def CommsBridge.addOutgoing (s : CommsBridge) (tid : String) : CommsBridge :=
  if s.outgoing.contains tid then s else { s with outgoing := s.outgoing ++ [tid] }

/-- The method `removeOutgoing(id)`: `Map.delete` on the outgoing registry. -/
def CommsBridge.removeOutgoing (s : CommsBridge) (tid : String) : CommsBridge :=
  { s with outgoing := s.outgoing.filter (fun t => t != tid) }

/-- The private `_send(pkg)`: the dispatch is guarded by the JS truthiness
test `if (pkg.msg.transportId)`, so an absent and an empty-string
`transportId` are both falsy and broadcast to every outgoing transport;
a nonempty `transportId` delivers only via that outgoing transport,
throwing when it is not registered.  Returns the deliveries made, or the
thrown error (in which case nothing was delivered). -/
def CommsBridge.lowSend (s : CommsBridge) (pkg : IPackage) :
    Except BridgeError (List (String × IPackage)) :=
  match pkg.msg.transportId with
  | some tid =>
    if tid = "" then Except.ok (s.outgoing.map (fun t => (t, pkg)))
    else if s.outgoing.contains tid then Except.ok [(tid, pkg)]
    else Except.error (BridgeError.transportNotFound tid)
  | none => Except.ok (s.outgoing.map (fun t => (t, pkg)))

/-- How a `send` call completes, as seen by its caller. -/
inductive SendOutcome where
  | rejected (e : BridgeError) : SendOutcome
  | thrown (e : BridgeError) : SendOutcome
  | resolvedUndefined : SendOutcome
  | awaiting (msgId : Nat) (timeoutMs : Int) : SendOutcome
deriving DecidableEq, Repr

/-- Result of a `send` call: the new state, the deliveries made, and how
the call completed. -/
structure SendResult where
  state : CommsBridge
  delivered : List (String × IPackage)
  outcome : SendOutcome

/-- The method `send(msg, options)`: reject when no outgoing transport is registered
(before assigning an id); otherwise wrap the message with the next id and
the sender id.  With `awaitReply`, schedule the timeout, register the
pending response, then dispatch (an error thrown by `_send` inside the
promise executor rejects the promise); without it, dispatch and resolve
with `undefined` (an error from `_send` is thrown synchronously). -/
def CommsBridge.send (s : CommsBridge) (msg : IMessage) (options : ISendOptions) :
    SendResult :=
  if s.outgoing.isEmpty then
    { state := s, delivered := [],
      outcome := SendOutcome.rejected (BridgeError.noTransport s.id) }
  else
    let wrappedMessage : IPackage := { id := some s.nextId, senderId := some s.id, msg := msg }
    let s1 := { s with nextId := s.nextId + 1 }
    if options.awaitReply then
      let dur := effectiveTimeout options
      let s2 := { s1 with pendingResponses := mapSet s1.pendingResponses s.nextId dur }
      match s2.lowSend wrappedMessage with
      | Except.ok ds =>
        { state := s2, delivered := ds, outcome := SendOutcome.awaiting s.nextId dur }
      | Except.error e =>
        { state := s2, delivered := [], outcome := SendOutcome.rejected e }
    else
      match s1.lowSend wrappedMessage with
      | Except.ok ds =>
        { state := s1, delivered := ds, outcome := SendOutcome.resolvedUndefined }
      | Except.error e =>
        { state := s1, delivered := [], outcome := SendOutcome.thrown e }

/-- The `setTimeout` callback registered by an awaited `send`: when the
timer for `msgId` fires, remove the pending entry and reject with a timeout
error if the entry still exists; otherwise do nothing. -/
def CommsBridge.fireTimeout (s : CommsBridge) (msgId : Nat) :
    CommsBridge × Option BridgeError :=
  match mapGet s.pendingResponses msgId with
  | some _ =>
    ({ s with pendingResponses := mapDelete s.pendingResponses msgId },
     some (BridgeError.replyTimeout msgId))
  | none => (s, none)

/-- The JS falsiness test `!pkg.msg.name`: absent or empty-string names are
both rejected by the router. -/
def nameFalsy : Option String → Bool
  | none => true
  | some n => n == ""

/-- Result of the router processing one incoming package. -/
structure RouterResult where
  state : CommsBridge
  delivered : List (String × IPackage)
  resolved : List (Nat × JSValue)
  thrown : Option BridgeError
  reports : List Report

/-- A router result that changes nothing and reports `rs`. -/
def RouterResult.quiet (s : CommsBridge) (rs : List Report) : RouterResult :=
  { state := s, delivered := [], resolved := [], thrown := none, reports := rs }

/-- The reply package built by the router for a handler result `v`:
a fresh id, this instance as sender, `replyId` correlating to the incoming
package, pinned to the incoming transport's id, targeted at the incoming
sender.  (`pkg.senderId!` in the code; the router only builds a reply for
packages that carried a sender.) -/
def mkReplyPackage (s : CommsBridge) (pkg : IPackage) (incomingTransportId : String)
    (v : JSValue) : IPackage :=
  { id := some s.nextId, senderId := some s.id, replyId := pkg.id,
    msg := { transportId := some incomingTransportId,
             targetId := pkg.senderId.getD "", payload := v } }

/-- The private `handleIncomingMessage(incomingTransportId, pkg)`, the
inbound router.  Guard order as in the code: drop own forwards, drop own
sends, forward when not addressed here, resolve replies, then dispatch by
name.  A truthy handler result is sent back as a reply package; for a
synchronous result the `_send` is not wrapped in any try/catch, so its
error escapes the router (`thrown`), while the asynchronous continuation
has a `.catch` and only reports.  The deferred continuation of a
promise-returning handler is executed in place. -/
def CommsBridge.handleIncomingMessage (s : CommsBridge) (incomingTransportId : String)
    (pkg : IPackage) : RouterResult :=
  if pkg.forwarderId = some s.id then
    RouterResult.quiet s []
  else if pkg.senderId = some s.id then
    RouterResult.quiet s []
  else if pkg.msg.targetId ≠ s.id then
    let reports := if s.outgoing.isEmpty then [Report.noOutgoingForForward] else []
    let stamped := { pkg with forwarderId := some s.id }
    { state := s, delivered := s.outgoing.map (fun t => (t, stamped)),
      resolved := [], thrown := none, reports := reports }
  else
    match pkg.replyId with
    | some rid =>
      match mapGet s.pendingResponses rid with
      | some _ =>
        { state := { s with pendingResponses := mapDelete s.pendingResponses rid },
          delivered := [], resolved := [(rid, pkg.msg.payload)],
          thrown := none, reports := [] }
      | none => RouterResult.quiet s []
    | none =>
      if nameFalsy pkg.msg.name then
        RouterResult.quiet s [Report.nameNotSet]
      else
        let messageName := pkg.msg.name.getD ""
        match mapGet s.responseHandlers messageName with
        | none => RouterResult.quiet s [Report.noHandler messageName]
        | some responseHandler =>
          match responseHandler pkg.msg.payload with
          | HandlerOutcome.throwsSync =>
            RouterResult.quiet s [Report.syncHandlerFailed messageName]
          | HandlerOutcome.syncResult v =>
            if v.truthy then
              let reply := mkReplyPackage s pkg incomingTransportId v
              let s1 := { s with nextId := s.nextId + 1 }
              match s1.lowSend reply with
              | Except.ok ds =>
                { state := s1, delivered := ds, resolved := [],
                  thrown := none, reports := [] }
              | Except.error e =>
                { state := s1, delivered := [], resolved := [],
                  thrown := some e, reports := [] }
            else RouterResult.quiet s []
          | HandlerOutcome.asyncResult v =>
            if v.truthy then
              let reply := mkReplyPackage s pkg incomingTransportId v
              let s1 := { s with nextId := s.nextId + 1 }
              match s1.lowSend reply with
              | Except.ok ds =>
                { state := s1, delivered := ds, resolved := [],
                  thrown := none, reports := [] }
              | Except.error _ =>
                { state := { s with nextId := s.nextId + 1 }, delivered := [],
                  resolved := [], thrown := none,
                  reports := [Report.replySendFailed pkg.id] }
            else RouterResult.quiet s []
          | HandlerOutcome.throwsAsync =>
            RouterResult.quiet s [Report.asyncHandlerFailed messageName]

/-! ## Association-list (JS `Map`) lemmas -/

/-- Looking up the key just set returns the value set. -/
theorem mapGet_mapSet_self {α β : Type} [DecidableEq α] (m : List (α × β)) (k : α) (v : β) :
    mapGet (mapSet m k v) k = some v := by
  induction m with
  | nil => simp [mapSet, mapGet]
  | cons e rest ih =>
    by_cases h : e.1 = k
    · simp [mapSet, mapGet, h]
    · simp [mapSet, mapGet, h, ih]

/-- Looking up a deleted key returns nothing. -/
theorem mapGet_mapDelete_self {α β : Type} [DecidableEq α] (m : List (α × β)) (k : α) :
    mapGet (mapDelete m k) k = none := by
  induction m with
  | nil => simp [mapDelete, mapGet]
  | cons e rest ih =>
    by_cases h : e.1 = k
    · simpa [mapDelete, mapGet, h] using ih
    · simpa [mapDelete, mapGet, h] using ih

/-- Deleting one key leaves the lookup of any other key unchanged. -/
theorem mapGet_mapDelete_ne {α β : Type} [DecidableEq α] (m : List (α × β)) (k k' : α)
    (h : k' ≠ k) : mapGet (mapDelete m k) k' = mapGet m k' := by
  induction m with
  | nil => rfl
  | cons e rest ih =>
    by_cases he : e.1 = k
    · have he' : ¬e.1 = k' := fun hk => h (by rw [← hk, he])
      simp [mapDelete, mapGet, he, he', Ne.symm h, ih]
    · simp only [mapDelete, mapGet, if_neg he]
      by_cases he' : e.1 = k'
      · simp [mapGet, he']
      · simp [mapGet, he', ih]

/-- If `_send` is given a package naming a registered transport, it
succeeds and delivers to exactly that transport. -/
theorem lowSend_targeted_ok (s : CommsBridge) (pkg : IPackage) (tid : String)
    (htr : pkg.msg.transportId = some tid) (h0 : tid ≠ "") (hmem : tid ∈ s.outgoing) :
    s.lowSend pkg = Except.ok [(tid, pkg)] := by
  simp [CommsBridge.lowSend, htr, h0, hmem]

/-- The state after an awaited `send` with a nonempty outgoing registry:
the id counter advanced once and the pending response registered under the
assigned id with the effective deadline, whether or not the delivery step
succeeded (the pending entry is registered before `_send` is called). -/
theorem send_awaited_state (s : CommsBridge) (msg : IMessage) (options : ISendOptions)
    (hne : s.outgoing ≠ []) (haw : options.awaitReply = true) :
    (s.send msg options).state =
      { s with nextId := s.nextId + 1,
               pendingResponses :=
                 mapSet s.pendingResponses s.nextId (effectiveTimeout options) } := by
  have hemp : s.outgoing.isEmpty = false := by simpa using hne
  simp only [CommsBridge.send, hemp, haw, Bool.false_eq_true, if_false, if_true]
  split <;> rfl

/-! ## Claim theorems -/

/-- C6: with zero outgoing transports registered, `send` rejects with the
no-transport error before any transport interaction: the state is returned
unchanged (no message id consumed, no pending-response entry created) and
no transport receives anything. -/
theorem send_noTransport_failsFirst (s : CommsBridge) (msg : IMessage)
    (options : ISendOptions) (h : s.outgoing = []) :
    s.send msg options =
      { state := s, delivered := [],
        outcome := SendOutcome.rejected (BridgeError.noTransport s.id) } := by
  simp [CommsBridge.send, h]

/-- Witness for C6 at a concrete bridge with no outgoing transports. -/
theorem send_noTransport_failsFirst_witness :
    (mkCommsBridge "w6").send { targetId := "t" } {} =
      { state := mkCommsBridge "w6", delivered := [],
        outcome := SendOutcome.rejected (BridgeError.noTransport "w6") } :=
  send_noTransport_failsFirst (mkCommsBridge "w6") { targetId := "t" } {} rfl

/-- A bridge with a single outgoing transport `a`, used to probe the
empty-string `transportId` edge. -/
def emptyTidBridge : CommsBridge := (mkCommsBridge "e7").addOutgoing "a"

/-- C7 counterexample: a send whose message carries `transportId = ""`,
where `""` is not a registered outgoing transport, does not fail with a
transport-not-found error and does deliver: the code guards the targeted
path with the JS truthiness test `if (pkg.msg.transportId)`, the empty
string is falsy, and the send broadcasts (here to transport `a`). -/
theorem send_targeted_exact_cex :
    ("" ∈ emptyTidBridge.outgoing → False) ∧
    (emptyTidBridge.send { targetId := "t", transportId := some "" } {}).outcome
        = SendOutcome.resolvedUndefined ∧
    (emptyTidBridge.send { targetId := "t", transportId := some "" } {}).delivered.map
        Prod.fst = ["a"] :=
  ⟨by decide, rfl, rfl⟩

/-- C7 amended: a `send` whose message carries a nonempty
`transportId = X`, with at least one outgoing transport registered: when X
is registered, exactly the transport registered under X receives the
wrapped message and no other transport receives anything; when X is not
registered, the call fails with the transport-not-found error (rejected
promise when awaiting, synchronous throw otherwise) and no transport
receives anything.  (An empty-string `transportId` is JS-falsy and is
treated as absent: such a send broadcasts.) -/
theorem send_targeted_exact (s : CommsBridge) (msg : IMessage) (options : ISendOptions)
    (X : String) (hne : s.outgoing ≠ []) (hX : msg.transportId = some X)
    (hX0 : X ≠ "") :
    (X ∈ s.outgoing →
      (s.send msg options).delivered =
        [(X, { id := some s.nextId, senderId := some s.id, msg := msg })]) ∧
    (X ∉ s.outgoing →
      (s.send msg options).delivered = [] ∧
      (s.send msg options).outcome =
        (if options.awaitReply then
          SendOutcome.rejected (BridgeError.transportNotFound X)
        else
          SendOutcome.thrown (BridgeError.transportNotFound X))) := by
  have hemp : s.outgoing.isEmpty = false := by simpa using hne
  constructor
  · intro hmem
    by_cases haw : options.awaitReply <;>
      simp [CommsBridge.send, CommsBridge.lowSend, hemp, hX, hX0, hmem, haw]
  · intro hmem
    by_cases haw : options.awaitReply <;>
      simp [CommsBridge.send, CommsBridge.lowSend, hemp, hX, hX0, hmem, haw]

/-- Witness for C7 (amended): with outgoing transports `a`, `b`, a send
targeted at transport `a` delivers exactly one package, to `a`. -/
theorem send_targeted_exact_witness :
    ((((mkCommsBridge "w7").addOutgoing "a").addOutgoing "b").send
        { targetId := "t", transportId := some "a" } {}).delivered =
      [("a", { id := some 1, senderId := some "w7",
               msg := { targetId := "t", transportId := some "a" } })] :=
  (send_targeted_exact (((mkCommsBridge "w7").addOutgoing "a").addOutgoing "b")
    { targetId := "t", transportId := some "a" } {} "a"
    (by decide) rfl (by decide)).1 (by decide)

/-- C8: a `send` without `transportId`, with the registered outgoing
transports forming a duplicate-free registry (as a JS `Map`'s keys always
do), broadcasts: the transports receiving the message are exactly the
registered ones, each receives it exactly once, and each receives the
wrapped message. -/
theorem send_broadcast_once (s : CommsBridge) (msg : IMessage) (options : ISendOptions)
    (hne : s.outgoing ≠ []) (hnd : s.outgoing.Nodup) (hX : msg.transportId = none) :
    ((s.send msg options).delivered.map Prod.fst = s.outgoing) ∧
    (∀ t ∈ s.outgoing, ((s.send msg options).delivered.map Prod.fst).count t = 1) ∧
    (∀ d ∈ (s.send msg options).delivered,
      d.2 = { id := some s.nextId, senderId := some s.id, msg := msg }) := by
  have hemp : s.outgoing.isEmpty = false := by simpa using hne
  have hdel : (s.send msg options).delivered =
      s.outgoing.map (fun t =>
        (t, ({ id := some s.nextId, senderId := some s.id, msg := msg } : IPackage))) := by
    by_cases haw : options.awaitReply <;>
      simp [CommsBridge.send, CommsBridge.lowSend, hemp, hX, haw]
  have hfst : (s.send msg options).delivered.map Prod.fst = s.outgoing := by
    rw [hdel, List.map_map]
    have hcomp : (Prod.fst ∘ fun t : String =>
        (t, ({ id := some s.nextId, senderId := some s.id, msg := msg } : IPackage))) =
        fun t : String => t := by
      funext t
      rfl
    rw [hcomp, List.map_id']
  refine ⟨hfst, ?_, ?_⟩
  · intro t ht
    rw [hfst]
    exact List.count_eq_one_of_mem hnd ht
  · intro d hd
    rw [hdel] at hd
    simp only [List.mem_map] at hd
    obtain ⟨t, _, hdt⟩ := hd
    rw [← hdt]

/-- Witness for C8 with two registered outgoing transports. -/
theorem send_broadcast_once_witness :
    ((((mkCommsBridge "w8").addOutgoing "a").addOutgoing "b").send
        { targetId := "t" } {}).delivered.map Prod.fst = ["a", "b"] :=
  (send_broadcast_once (((mkCommsBridge "w8").addOutgoing "a").addOutgoing "b")
    { targetId := "t" } {} (by decide) (by decide) rfl).1

/-- C10: an awaited `send` supplying `timeout: 0` registers its pending
response under the default 5000 ms deadline, because the option is combined
with the default by the JS truthiness fallback `options?.timeout ||
this.defaultTimeout` and `0` is falsy. -/
theorem send_zeroTimeout_usesDefault (s : CommsBridge) (msg : IMessage)
    (hne : s.outgoing ≠ []) :
    effectiveTimeout { awaitReply := true, timeout := some 0 } = defaultTimeout ∧
    mapGet (s.send msg { awaitReply := true, timeout := some 0 }).state.pendingResponses
        s.nextId = some defaultTimeout ∧
    (s.send msg { awaitReply := true, timeout := some 0 }).state.pendingResponses =
      mapSet s.pendingResponses s.nextId defaultTimeout := by
  have hpend : (s.send msg { awaitReply := true, timeout := some 0 }).state.pendingResponses =
      mapSet s.pendingResponses s.nextId defaultTimeout := by
    rw [send_awaited_state s msg { awaitReply := true, timeout := some 0 } hne rfl]
    rfl
  exact ⟨rfl, by rw [hpend]; exact mapGet_mapSet_self _ _ _, hpend⟩

/-- Witness for C10 at a concrete bridge. -/
theorem send_zeroTimeout_usesDefault_witness :
    mapGet (((mkCommsBridge "wA").addOutgoing "a").send { targetId := "t" }
        { awaitReply := true, timeout := some 0 }).state.pendingResponses 1 = some 5000 :=
  (send_zeroTimeout_usesDefault ((mkCommsBridge "wA").addOutgoing "a")
    { targetId := "t" } (by decide)).2.1

/-- C4: an incoming message whose forwarder, sender and target all differ
from the local instance id is re-sent to every registered outgoing
transport (whatever transport it arrived on) with `forwarderId` stamped to
the local id; and an incoming message whose `forwarderId` already equals
the local id is dropped with no delivery, no resolution, no report and no
state change (so no handler runs). -/
theorem router_forwards_and_dropsOwnForwards (s : CommsBridge) (tid : String)
    (pkg : IPackage) :
    (pkg.forwarderId ≠ some s.id → pkg.senderId ≠ some s.id → pkg.msg.targetId ≠ s.id →
      s.handleIncomingMessage tid pkg =
        { state := s,
          delivered := s.outgoing.map (fun t => (t, { pkg with forwarderId := some s.id })),
          resolved := [], thrown := none,
          reports := if s.outgoing.isEmpty then [Report.noOutgoingForForward] else [] }) ∧
    (pkg.forwarderId = some s.id →
      s.handleIncomingMessage tid pkg = RouterResult.quiet s []) := by
  constructor
  · intro hfw hsd htg
    simp [CommsBridge.handleIncomingMessage, hfw, hsd, htg]
  · intro hfw
    simp [CommsBridge.handleIncomingMessage, hfw]

/-- Witness for C4: a bridge with one outgoing transport forwards a
message addressed elsewhere, stamping it with its own id. -/
theorem router_forwards_and_dropsOwnForwards_witness :
    ((mkCommsBridge "me").addOutgoing "a").handleIncomingMessage "in"
        { senderId := some "you", msg := { targetId := "other" } } =
      { state := (mkCommsBridge "me").addOutgoing "a",
        delivered := (((mkCommsBridge "me").addOutgoing "a").outgoing).map
          (fun t => (t, { senderId := some "you", forwarderId := some "me",
                          msg := { targetId := "other" } })),
        resolved := [], thrown := none,
        reports := if (((mkCommsBridge "me").addOutgoing "a").outgoing).isEmpty
                   then [Report.noOutgoingForForward] else [] } :=
  (router_forwards_and_dropsOwnForwards ((mkCommsBridge "me").addOutgoing "a") "in"
    { senderId := some "you", msg := { targetId := "other" } }).1
    (by decide) (by decide) (by decide)

/-- C3: an incoming message addressed to the local instance (and past the
own-forward and own-send guards) with `replyId` set is treated only as a
reply: when a pending response exists for that id the entry is removed and
the payload resolved to it, otherwise the message is silently ignored and
the pending table is untouched; in both cases nothing is delivered, nothing
is thrown, nothing is reported, and no name-based handler runs (the state
apart from the pending table is unchanged — in particular the id counter,
which every handler reply would advance). -/
theorem router_replyId_resolvesOrDrops (s : CommsBridge) (tid : String) (pkg : IPackage)
    (rid : Nat) (hfw : pkg.forwarderId ≠ some s.id) (hsd : pkg.senderId ≠ some s.id)
    (htg : pkg.msg.targetId = s.id) (hrp : pkg.replyId = some rid) :
    (∀ d : Int, mapGet s.pendingResponses rid = some d →
      s.handleIncomingMessage tid pkg =
        { state := { s with pendingResponses := mapDelete s.pendingResponses rid },
          delivered := [], resolved := [(rid, pkg.msg.payload)],
          thrown := none, reports := [] }) ∧
    (mapGet s.pendingResponses rid = none →
      s.handleIncomingMessage tid pkg = RouterResult.quiet s []) := by
  constructor
  · intro d hd
    simp [CommsBridge.handleIncomingMessage, hfw, hsd, htg, hrp, hd]
  · intro hd
    simp [CommsBridge.handleIncomingMessage, hfw, hsd, htg, hrp, hd]

/-- Witness for C3: a bridge holding one pending response resolves an
incoming reply to it, even though the reply also carries the name of a
registered handler. -/
theorem router_replyId_resolvesOrDrops_witness :
    ({ mkCommsBridge "me" with
        pendingResponses := [(5, 1000)]
        responseHandlers :=
          [("evt", fun _ => HandlerOutcome.syncResult (JSValue.num 1))] } :
      CommsBridge).handleIncomingMessage
        "in" { replyId := some 5, senderId := some "you",
               msg := { targetId := "me", name := some "evt",
                        payload := JSValue.num 9 } } =
      { state := { mkCommsBridge "me" with
          pendingResponses := mapDelete [(5, 1000)] 5
          responseHandlers :=
            [("evt", fun _ => HandlerOutcome.syncResult (JSValue.num 1))] },
        delivered := [], resolved := [(5, JSValue.num 9)],
        thrown := none, reports := [] } :=
  (router_replyId_resolvesOrDrops
    { mkCommsBridge "me" with
        pendingResponses := [(5, 1000)]
        responseHandlers := [("evt", fun _ => HandlerOutcome.syncResult (JSValue.num 1))] }
    "in" { replyId := some 5, senderId := some "you",
           msg := { targetId := "me", name := some "evt", payload := JSValue.num 9 } }
    5 (by decide) (by decide) rfl rfl).1 1000 rfl

/-- C2: an awaited `send` registers a pending response under the new
message id; when the timer fires before any reply, the pending entry is
removed and the call rejected with the timeout error; a reply for that id
arriving afterwards finds no pending entry and changes nothing — it is not
resolved and the already-failed call is unaffected. -/
theorem awaited_send_timeout_idempotent (s : CommsBridge) (msg : IMessage)
    (options : ISendOptions) (reply : IPackage) (tid : String)
    (hne : s.outgoing ≠ []) (haw : options.awaitReply = true)
    (hfw : reply.forwarderId ≠ some s.id) (hsd : reply.senderId ≠ some s.id)
    (htg : reply.msg.targetId = s.id) (hrp : reply.replyId = some s.nextId) :
    ((s.send msg options).state.fireTimeout s.nextId).2
        = some (BridgeError.replyTimeout s.nextId) ∧
    mapGet ((s.send msg options).state.fireTimeout s.nextId).1.pendingResponses s.nextId
        = none ∧
    ((s.send msg options).state.fireTimeout s.nextId).1.handleIncomingMessage tid reply
        = RouterResult.quiet ((s.send msg options).state.fireTimeout s.nextId).1 [] := by
  have hstate := send_awaited_state s msg options hne haw
  have hget : mapGet (s.send msg options).state.pendingResponses s.nextId
      = some (effectiveTimeout options) := by
    rw [hstate]
    exact mapGet_mapSet_self _ _ _
  have hfire : (s.send msg options).state.fireTimeout s.nextId =
      (({ (s.send msg options).state with
          pendingResponses :=
            mapDelete (s.send msg options).state.pendingResponses s.nextId } : CommsBridge),
       some (BridgeError.replyTimeout s.nextId)) := by
    simp [CommsBridge.fireTimeout, hget]
  refine ⟨by rw [hfire], ?_, ?_⟩
  · rw [hfire, hstate]
    exact mapGet_mapDelete_self _ _
  · rw [hfire, hstate]
    simp [CommsBridge.handleIncomingMessage, RouterResult.quiet, hfw, hsd, htg, hrp,
          mapGet_mapDelete_self]

/-- Witness for C2 on a concrete awaited send followed by its timeout and
a late reply. -/
theorem awaited_send_timeout_idempotent_witness :
    ((((mkCommsBridge "me").addOutgoing "a").send { targetId := "t" }
        { awaitReply := true, timeout := some 7 }).state.fireTimeout 1).2
      = some (BridgeError.replyTimeout 1) :=
  (awaited_send_timeout_idempotent ((mkCommsBridge "me").addOutgoing "a")
    { targetId := "t" } { awaitReply := true, timeout := some 7 }
    { replyId := some 1, senderId := some "you",
      msg := { targetId := "me", payload := JSValue.num 9 } } "in"
    (by decide) rfl (by decide) (by decide) rfl rfl).1

/-- The state after a non-awaited `send` with a nonempty outgoing
registry: the id counter advanced once; no pending entry is created. -/
theorem send_unawaited_state (s : CommsBridge) (msg : IMessage) (options : ISendOptions)
    (hne : s.outgoing ≠ []) (haw : options.awaitReply = false) :
    (s.send msg options).state = { s with nextId := s.nextId + 1 } := by
  have hemp : s.outgoing.isEmpty = false := by simpa using hne
  simp only [CommsBridge.send, hemp, haw, Bool.false_eq_true, if_false]
  split <;> rfl

/-- Every delivery returned by a successful `_send` carries exactly the
package it was given. -/
theorem lowSend_ok_pkg (s' : CommsBridge) (pkg : IPackage)
    (ds : List (String × IPackage)) (hds : s'.lowSend pkg = Except.ok ds) :
    ∀ d ∈ ds, d.2 = pkg := by
  unfold CommsBridge.lowSend at hds
  cases htr : pkg.msg.transportId with
  | some tid =>
    simp only [htr] at hds
    by_cases h0 : tid = ""
    · rw [if_pos h0] at hds
      cases hds
      intro d hd
      simp only [List.mem_map] at hd
      obtain ⟨t, _, ht⟩ := hd
      rw [← ht]
    · rw [if_neg h0] at hds
      by_cases hc : s'.outgoing.contains tid = true
      · rw [if_pos hc] at hds
        cases hds
        intro d hd
        simp only [List.mem_singleton] at hd
        rw [hd]
      · rw [if_neg hc] at hds
        cases hds
  | none =>
    simp only [htr] at hds
    cases hds
    intro d hd
    simp only [List.mem_map] at hd
    obtain ⟨t, _, ht⟩ := hd
    rw [← ht]

/-- Every package delivered by a `send` (in either mode) carries the id
assigned from the counter at the time of the call. -/
theorem send_delivered_ids (s : CommsBridge) (msg : IMessage) (options : ISendOptions)
    (hne : s.outgoing ≠ []) :
    ∀ d ∈ (s.send msg options).delivered, d.2.id = some s.nextId := by
  have hemp : s.outgoing.isEmpty = false := by simpa using hne
  intro d hd
  simp only [CommsBridge.send, hemp, Bool.false_eq_true, if_false] at hd
  by_cases haw : options.awaitReply = true
  · rw [if_pos haw] at hd
    split at hd
    · rename_i ds heq
      have := lowSend_ok_pkg _ _ _ heq d hd
      rw [this]
    · simp at hd
  · rw [if_neg haw] at hd
    split at hd
    · rename_i ds heq
      have := lowSend_ok_pkg _ _ _ heq d hd
      rw [this]
    · simp at hd

/-- The first sends performed on a fresh bridge with transport `a`: a
broadcast send, then a send naming an unregistered transport `b` (which
fails but still consumes an id), then another broadcast send. -/
def gapBridge0 : CommsBridge := (mkCommsBridge "me").addOutgoing "a"

/-- First send in the C9 scenario. -/
def gapSend1 : SendResult := gapBridge0.send { targetId := "t" } {}

/-- Second send in the C9 scenario, naming an unregistered transport. -/
def gapSend2 : SendResult :=
  gapSend1.state.send { targetId := "t", transportId := some "b" } {}

/-- Third send in the C9 scenario. -/
def gapSend3 : SendResult := gapSend2.state.send { targetId := "t" } {}

/-- C9 counterexample: on one instance, a successful send is assigned id
1, a following send naming an unregistered transport fails with the
transport-not-found error yet still consumes id 2 (the id is assigned
before the delivery step), and the next successful send is assigned id 3 —
so the two consecutive successful sends received ids 1 and 3, a gap,
refuting the no-gaps part of the claim. -/
theorem sendIds_noGaps_cex :
    gapSend1.outcome = SendOutcome.resolvedUndefined ∧
    gapSend2.outcome = SendOutcome.thrown (BridgeError.transportNotFound "b") ∧
    gapSend3.outcome = SendOutcome.resolvedUndefined ∧
    gapSend1.delivered.map (fun d => d.2.id) = [some 1] ∧
    gapSend2.delivered = [] ∧
    gapSend3.delivered.map (fun d => d.2.id) = [some 3] :=
  ⟨rfl, rfl, rfl, rfl, rfl, rfl⟩

/-- C9 amended: ids are assigned from a per-instance counter starting at
1; a send rejected by the no-transport check consumes no id and delivers
nothing, while every other send — successful or failing later, e.g. with
transport-not-found — advances the counter by exactly one and stamps every
package it delivers with the counter value at call time.  Hence ids are
strictly increasing and never reused, but consecutive successful sends may
show a gap when a failing send (or a router-generated reply) intervenes. -/
theorem sendIds_counter_perSend (s : CommsBridge) (msg : IMessage)
    (options : ISendOptions) :
    (∀ i : String, (mkCommsBridge i).nextId = 1) ∧
    (s.outgoing = [] →
      (s.send msg options).state.nextId = s.nextId ∧
      (s.send msg options).delivered = []) ∧
    (s.outgoing ≠ [] →
      (s.send msg options).state.nextId = s.nextId + 1 ∧
      ∀ d ∈ (s.send msg options).delivered, d.2.id = some s.nextId) := by
  refine ⟨fun i => rfl, ?_, ?_⟩
  · intro h
    constructor <;> simp [CommsBridge.send, h]
  · intro h
    constructor
    · by_cases haw : options.awaitReply = true
      · rw [send_awaited_state s msg options h haw]
      · rw [send_unawaited_state s msg options h (by simpa using haw)]
    · exact send_delivered_ids s msg options h

/-- Witness for C9 (amended): one send on a fresh one-transport bridge
advances the counter from 1 to 2 and delivers a package with id 1. -/
theorem sendIds_counter_perSend_witness :
    (gapBridge0.send { targetId := "t" } {}).state.nextId = gapBridge0.nextId + 1 :=
  ((sendIds_counter_perSend gapBridge0 { targetId := "t" } {}).2.2 (by decide)).1

/-- A handler whose result is present and non-null but JS-falsy. -/
def falseHandler : RespondHandlerFn :=
  fun _ => HandlerOutcome.syncResult (JSValue.bool false)

/-- A handler returning the truthy value `42`. -/
def fortyTwoHandler : RespondHandlerFn :=
  fun _ => HandlerOutcome.syncResult (JSValue.num 42)

/-- A bridge whose handler for `evt` returns `false`, with the outgoing
registry containing the incoming transport's id. -/
def falsyResultBridge : CommsBridge :=
  ((mkCommsBridge "me").addOutgoing "in").respond "evt" falseHandler

/-- A bridge whose handler for `evt` returns `42`, with the outgoing
registry containing the incoming transport's id. -/
def truthyResultBridge : CommsBridge :=
  ((mkCommsBridge "me").addOutgoing "in").respond "evt" fortyTwoHandler

/-- A bridge whose handler for `evt` returns `42`, but whose only outgoing
transport id (`out`) differs from the incoming transport (`in`). -/
def mismatchedBridge : CommsBridge :=
  ((mkCommsBridge "out-only").addOutgoing "out").respond "evt" fortyTwoHandler

/-- A well-formed incoming request probing the handler path: addressed to
the local instance, not forwarded, carrying a foreign sender, no replyId,
and the name of the registered handler. -/
def probeRequest (localId : String) : IPackage :=
  { id := some 7, senderId := some "you",
    msg := { targetId := localId, name := some "evt", payload := JSValue.num 5 } }

/-- C1 counterexample: the registered handler returns `false` — a present,
non-null result — for a targeted, well-formed request, yet the router sends
no reply at all (the code gates the reply on JavaScript truthiness, not on
present-and-non-null). -/
theorem handler_nonNull_result_reply_cex :
    falseHandler (probeRequest "me").msg.payload
        = HandlerOutcome.syncResult (JSValue.bool false) ∧
    JSValue.bool false ≠ JSValue.undef ∧
    JSValue.bool false ≠ JSValue.null ∧
    mapGet falsyResultBridge.responseHandlers "evt" = some falseHandler ∧
    falsyResultBridge.handleIncomingMessage "in" (probeRequest "me")
        = RouterResult.quiet falsyResultBridge [] :=
  ⟨rfl, by decide, by decide, rfl, rfl⟩

/-- C1 amended: for every incoming message addressed to the local instance
(`targetId` local, foreign `forwarderId` and `senderId`, no `replyId`,
`name` naming a registered handler) whose handler returns a JS-truthy
result, synchronously or via a resolved promise, and provided the incoming
transport's id is nonempty (an empty id would be JS-falsy in the reply's
`transportId` and make the reply broadcast) and registered as an outgoing
transport, the router sends exactly one reply whose `replyId` is the
incoming id, whose `targetId` is the incoming sender, whose `transportId`
is the incoming transport's id and whose payload is the handler's result;
when the handler's result is falsy (in particular when it returns no
result at all), no reply is sent. -/
theorem handler_truthy_result_sendsReply (s : CommsBridge) (tid : String)
    (pkg : IPackage) (sid n : String) (h : RespondHandlerFn) (v : JSValue)
    (hfw : pkg.forwarderId ≠ some s.id) (hsd : pkg.senderId = some sid)
    (hsne : sid ≠ s.id) (htg : pkg.msg.targetId = s.id) (hrp : pkg.replyId = none)
    (hnm : pkg.msg.name = some n) (hn0 : n ≠ "")
    (hh : mapGet s.responseHandlers n = some h)
    (hres : h pkg.msg.payload = HandlerOutcome.syncResult v ∨
            h pkg.msg.payload = HandlerOutcome.asyncResult v)
    (htid0 : tid ≠ "") (htid : tid ∈ s.outgoing) :
    (v.truthy = true →
      s.handleIncomingMessage tid pkg =
        { state := { s with nextId := s.nextId + 1 },
          delivered := [(tid, { id := some s.nextId, senderId := some s.id,
                                replyId := pkg.id,
                                msg := { transportId := some tid, targetId := sid,
                                         payload := v } })],
          resolved := [], thrown := none, reports := [] }) ∧
    (v.truthy = false →
      s.handleIncomingMessage tid pkg = RouterResult.quiet s []) := by
  have hsd2 : pkg.senderId ≠ some s.id := by
    rw [hsd]
    simp [hsne]
  constructor
  · intro htr
    rcases hres with hres | hres <;>
      simp [CommsBridge.handleIncomingMessage, hfw, hsd2, htg, hrp, hnm, nameFalsy,
            hn0, hh, hres, htr, mkReplyPackage, CommsBridge.lowSend, htid0, htid,
            hsd, hsne]
  · intro htr
    rcases hres with hres | hres <;>
      simp [CommsBridge.handleIncomingMessage, RouterResult.quiet, hfw, hsd2, htg,
            hrp, hnm, nameFalsy, hn0, hh, hres, htr]

/-- Witness for C1 (amended): the `42`-returning handler produces exactly
one reply back along the incoming transport. -/
theorem handler_truthy_result_sendsReply_witness :
    truthyResultBridge.handleIncomingMessage "in" (probeRequest "me") =
      { state := { truthyResultBridge with nextId := 2 },
        delivered := [("in", { id := some 1, senderId := some "me", replyId := some 7,
                               msg := { transportId := some "in", targetId := "you",
                                        payload := JSValue.num 42 } })],
        resolved := [], thrown := none, reports := [] } :=
  (handler_truthy_result_sendsReply truthyResultBridge "in" (probeRequest "me")
    "you" "evt" fortyTwoHandler (JSValue.num 42) (by decide) rfl (by decide) rfl rfl
    rfl (by decide) rfl (Or.inl rfl) (by decide) (by decide)).1 rfl

/-- C5 counterexample: a synchronous handler result triggers a reply send
pinned to the incoming transport's id; when that id is not registered as an
outgoing transport, the un-caught `_send` throws and the error escapes
`handleIncomingMessage` into the incoming transport's callback, so the
router is not exception-free. -/
theorem router_never_throws_cex :
    (mismatchedBridge.handleIncomingMessage "in" (probeRequest "out-only")).thrown
      = some (BridgeError.transportNotFound "in") := rfl

/-- C5 amended: a missing name, a missing handler, a synchronously
throwing handler, an asynchronous handler failure and a failure to send an
asynchronous reply are all contained (reported, not propagated); the one
uncontained case is the reply to a synchronous handler result, whose
`_send` has no try/catch and throws when the incoming transport's id is
not registered as an outgoing transport.  Provided that id is registered,
the router never raises into the incoming transport's callback. -/
theorem router_never_throws_whenRegistered (s : CommsBridge) (tid : String)
    (pkg : IPackage) (htid : tid ∈ s.outgoing) :
    (s.handleIncomingMessage tid pkg).thrown = none := by
  unfold CommsBridge.handleIncomingMessage
  repeat' split
  all_goals try rfl
  all_goals
    cases hmap : mapGet s.responseHandlers (pkg.msg.name.getD "") with
    | none => simp [hmap, RouterResult.quiet]
    | some rh =>
      cases hout : rh pkg.msg.payload with
      | throwsSync => simp [hmap, hout, RouterResult.quiet]
      | throwsAsync => simp [hmap, hout, RouterResult.quiet]
      | syncResult v =>
        by_cases htr : v.truthy = true
        · by_cases h0 : tid = "" <;>
            simp [hmap, hout, htr, h0, RouterResult.quiet, CommsBridge.lowSend,
                  mkReplyPackage, htid]
        · simp [hmap, hout, htr, RouterResult.quiet]
      | asyncResult v =>
        by_cases htr : v.truthy = true
        · by_cases h0 : tid = "" <;>
            simp [hmap, hout, htr, h0, RouterResult.quiet, CommsBridge.lowSend,
                  mkReplyPackage, htid]
        · simp [hmap, hout, htr, RouterResult.quiet]

/-- Witness for C5 (amended) on the bridge whose outgoing registry does
contain the incoming transport's id. -/
theorem router_never_throws_whenRegistered_witness :
    (truthyResultBridge.handleIncomingMessage "in" (probeRequest "me")).thrown = none :=
  router_never_throws_whenRegistered truthyResultBridge "in" (probeRequest "me")
    (by decide)
